import Mathlib

/-!
Verification of the Glances GPU plugin (`glances/plugins/glances_gpu.py`),
a Glances plugin that collects NVIDIA GPU statistics through the `pynvml`
bindings and renders them in the curses interface.

The embedding models the Python module shallowly:

* NVML driver calls are oracles packed into a `DeviceHandle`: each call
  either returns a value or raises `pynvml.NVMLError` (modelled as
  `Except Unit`).
* Python exceptions escaping a plugin method are modelled with
  `Except PyError`; a method that cannot raise is a total Lean function.
* Machine integers are `Nat` (all the quantities involved are
  non-negative percentages, counts and byte sizes).
* Python string formatting is modelled exactly where the source uses it:
  width padding, truncation by slicing, and the two formatting errors the
  source can hit (an invalid format specifier, and formatting `None`
  with a width specifier).
-/

namespace GlancesGpu

/-- The Python exceptions relevant to this module, beyond `pynvml.NVMLError`
(which every driver oracle below may signal as `Except.error ()`). -/
inductive PyError where
  | typeError
  | valueError
  | attributeError
  | zeroDivisionError
deriving DecidableEq, Repr

/-- Result of `pynvml.nvmlDeviceGetUtilizationRates`: `.gpu` and `.memory`
are utilization percentages. -/
structure GpuUtilization where
  gpu : Nat
  memory : Nat
deriving DecidableEq, Repr

/-- Result of `pynvml.nvmlDeviceGetMemoryInfo`: byte counts. -/
structure GpuMemoryInfo where
  used : Nat
  total : Nat
deriving DecidableEq, Repr

instance {ε α : Type} [DecidableEq ε] [DecidableEq α] :
    DecidableEq (Except ε α) := fun x y =>
  match x, y with
  | .ok a, .ok b =>
    if h : a = b then .isTrue (by rw [h]) else .isFalse (by simp [h])
  | .ok _, .error _ => .isFalse (by simp)
  | .error _, .ok _ => .isFalse (by simp)
  | .error e, .error f =>
    if h : e = f then .isTrue (by rw [h]) else .isFalse (by simp [h])

/-- An NVML device handle, modelled by the replies the driver gives for the
three per-device calls the plugin makes.  `Except.error ()` is the driver
raising `pynvml.NVMLError`. -/
structure DeviceHandle where
  nvmlDeviceGetName : Except Unit String
  nvmlDeviceGetUtilizationRates : Except Unit GpuUtilization
  nvmlDeviceGetMemoryInfo : Except Unit GpuMemoryInfo
deriving DecidableEq, Repr

/-- One entry of `self.stats`: the per-GPU dictionary built by
`get_device_stats` with keys `key`, `gpu_id`, `name`, `mem`, `proc`.
`mem` and `proc` are `None`-able percentages. -/
structure DeviceStats where
  key : String
  gpu_id : Nat
  name : String
  mem : Option Nat
  proc : Option Nat
deriving DecidableEq, Repr

/-- `Plugin.get_key`: the key of the stats list. -/
def get_key : String := "gpu_id"

/-- `Plugin.get_device_name`.  The source reads

    try:
        return pynvml.nvmlDeviceGetName(device_handle)
    except pynvml.NVMlError:
        return "NVIDIA GPU"

The handler names `pynvml.NVMlError`, a misspelling of `pynvml.NVMLError`.
When the driver call raises, Python evaluates the handler expression,
the attribute lookup fails, and an `AttributeError` propagates: the
`"NVIDIA GPU"` fallback is unreachable. -/
def get_device_name (h : DeviceHandle) : Except PyError String :=
  match h.nvmlDeviceGetName with
  | .ok n => .ok n
  | .error _ => .error .attributeError

/-- `Plugin.get_mem`: utilization-rates memory percent; on `NVMLError`
fall back to `used * 100 / total` from the memory info; on a second
`NVMLError` return `None`.  Both handlers spell `NVMLError` correctly
and catch only `NVMLError`, so the one way the method can raise is the
fallback division itself: when the driver reports `total == 0` the
division raises `ZeroDivisionError`, which neither handler catches and
which therefore propagates to the caller.  Otherwise the division is
integer division, as in Python 2 (the codebase's primary target at this
revision). -/
def get_mem (h : DeviceHandle) : Except PyError (Option Nat) :=
  match h.nvmlDeviceGetUtilizationRates with
  | .ok u => .ok (some u.memory)
  | .error _ =>
    match h.nvmlDeviceGetMemoryInfo with
    | .ok m =>
      if m.total = 0 then .error .zeroDivisionError
      else .ok (some (m.used * 100 / m.total))
    | .error _ => .ok none

/-- `Plugin.get_proc`: utilization-rates gpu percent, `None` on
`NVMLError`. -/
def get_proc (h : DeviceHandle) : Option Nat :=
  match h.nvmlDeviceGetUtilizationRates with
  | .ok u => some u.gpu
  | .error _ => none

/-- The loop body of `Plugin.get_device_stats`, with `idx` the value of
`enumerate`'s counter for the head device.  Builds one dictionary per
device, in driver enumeration order; `get_device_name` may raise
(see `get_device_name`) and `get_mem` may raise (see `get_mem`), either
of which aborts the whole method. -/
def get_device_stats_from (idx : Nat) :
    List DeviceHandle → Except PyError (List DeviceStats)
  | [] => .ok []
  | h :: rest =>
    match get_device_name h with
    | .error e => .error e
    | .ok name =>
      match get_mem h with
      | .error e => .error e
      | .ok mem =>
        match get_device_stats_from (idx + 1) rest with
        | .error e => .error e
        | .ok tail => .ok (⟨get_key, idx, name, mem, get_proc h⟩ :: tail)

/-- `Plugin.get_device_stats`: one stats dictionary per handle,
`gpu_id` assigned by `enumerate` starting at 0. -/
def get_device_stats (handles : List DeviceHandle) :
    Except PyError (List DeviceStats) :=
  get_device_stats_from 0 handles

/-- The module-level environment `init_nvidia` depends on:
whether `import pynvml` succeeded (`gpu_nvidia_tag`), and what
`pynvml.nvmlInit()` and `get_device_handles()` would do. -/
structure PluginEnv where
  gpu_nvidia_tag : Bool
  nvmlInitResult : Except Unit Unit
  deviceHandlesResult : Except Unit (List DeviceHandle)
deriving DecidableEq, Repr

/-- `Plugin.init_nvidia`.  When `gpu_nvidia_tag` is false the name
`pynvml` is unbound, so `pynvml.nvmlInit()` raises `NameError`, caught by
the bare `except Exception`.  On any failure `nvml_ready` is `False` and
`self.device_handles` is never assigned (modelled as `none`); the method
itself never raises. -/
def init_nvidia (env : PluginEnv) : Bool × Option (List DeviceHandle) :=
  if env.gpu_nvidia_tag then
    match env.nvmlInitResult with
    | .ok _ =>
      match env.deviceHandlesResult with
      | .ok hs => (true, some hs)
      | .error _ => (false, none)
    | .error _ => (false, none)
  else
    (false, none)

/-- The plugin state that `update` reads and writes: `nvml_ready` and
`device_handles` as set by `init_nvidia`, the inherited `input_method`
string, and the current `self.stats`. -/
structure PluginState where
  nvml_ready : Bool
  device_handles : List DeviceHandle
  input_method : String
  stats : List DeviceStats
deriving DecidableEq, Repr

/-- `Plugin.update`.  Calls `self.reset()` first (emptying `self.stats`),
returns the empty stats when the driver is not ready, collects via
`get_device_stats` only for `input_method == 'local'` (the `'snmp'`
branch is `pass`, any other value falls through the `if`/`elif`), and
returns `self.stats`.  The assignment `self.stats = self.get_device_stats()`
is atomic: if collection raises, `self.stats` keeps the value `[]` set by
`reset`.  Returns the new state and the method's return value (or the
escaping exception). -/
def update (st : PluginState) :
    PluginState × Except PyError (List DeviceStats) :=
  let st1 := { st with stats := [] }
  if st1.nvml_ready then
    if st1.input_method = "local" then
      match get_device_stats st1.device_handles with
      | .ok s => ({ st1 with stats := s }, .ok s)
      | .error e => (st1, .error e)
    else
      (st1, .ok st1.stats)
  else
    (st1, .ok st1.stats)

/-- Alert levels returned by `GlancesPlugin.get_alert` (as decoration
strings in the source; the distinction matters only up to which level is
chosen). -/
inductive AlertLevel where
  | ok
  | careful
  | warning
  | critical
deriving DecidableEq, Repr

/-- Alert thresholds for one metric. -/
structure Thresholds where
  careful : Nat
  warning : Nat
  critical : Nat
deriving DecidableEq, Repr

/-- Modelled from the spec: `GlancesPlugin.get_alert` is defined in
`glances/plugins/glances_plugin.py`, which is not part of this source
tree (only its caller `Plugin.update_views` is).  Per the spec, threshold
comparison is `>=` against the ascending boundaries careful, warning,
critical, the first boundary met from the top winning (critical checked
before warning before careful), and evaluation is stateless. -/
def get_alert (value : Nat) (t : Thresholds) : AlertLevel :=
  if t.critical ≤ value then .critical
  else if t.warning ≤ value then .warning
  else if t.careful ≤ value then .careful
  else .ok

/-- A curses message item: `curse_add_line(msg, decoration)` or
`curse_new_line()` (helpers inherited from `GlancesPlugin`; the parent
class defaults `decoration` to `"DEFAULT"`). -/
inductive CurseItem where
  | line (msg : String) (decoration : String)
  | newline
deriving DecidableEq, Repr

/-- `n` spaces. -/
def spaces (n : Nat) : String := String.mk (List.replicate n ' ')

/-- Python right-alignment `'\x7b:>w\x7d'`: pad on the left to width `w`. -/
def padLeft (w : Nat) (s : String) : String := spaces (w - s.length) ++ s

/-- Python string formatting `'\x7b:w\x7d'` on a `str`: left-justified,
pad on the right to width `w`. -/
def padRight (w : Nat) (s : String) : String := s ++ spaces (w - s.length)

/-- Formatting an optional number with a width specifier, as in the
multi-GPU row.  Python 3 `object.__format__` raises `TypeError` when
`None` is formatted with a non-empty format spec. -/
def formatOptNat (w : Nat) : Option Nat → Except PyError String
  | some v => .ok (padLeft w (toString v))
  | none => .error .typeError

/-- One multi-GPU summary row:
`'\x7b\x7d: \x7b:>3\x7d% mem: \x7b:>3\x7d%'.format(gpu_id, proc, mem)`,
formatting `proc` then `mem`. -/
def gpuSummaryRow (g : DeviceStats) : Except PyError CurseItem := do
  let p ← formatOptNat 3 g.proc
  let m ← formatOptNat 3 g.mem
  .ok (.line (toString g.gpu_id ++ ": " ++ p ++ "% mem: " ++ m ++ "%") "DEFAULT")

/-- The multi-GPU loop: a new line followed by a summary row, per device,
in list order. -/
def gpuSummaryRows : List DeviceStats → Except PyError (List CurseItem)
  | [] => .ok []
  | g :: rest => do
    let r ← gpuSummaryRow g
    let rs ← gpuSummaryRows rest
    .ok (.newline :: r :: rs)

/-- `Plugin.msg_curse`.  `disabled` is `self.is_disable()` and `views`
is `self.get_views(item, key, option='decoration')`, both inherited from
`GlancesPlugin`.

* Empty stats or a disabled plugin: the empty message list.
* Exactly one GPU: the detail layout.  `int(gpu_stats['proc'])` raises
  `TypeError` when `proc` is `None`; the mem value line uses the format
  string `'\x7b:>7d%\x7d'`, whose format specifier `>7d%` is invalid
  (the `%` sits inside the replacement field), so a numeric mem raises
  `ValueError` — only the `None` branch, which renders `'N/A'` with
  `'\x7b:>8\x7d'`, survives.
* Several GPUs: a header then one condensed row per device. -/
def msg_curse (stats : List DeviceStats) (disabled : Bool)
    (views : Nat → String → String) : Except PyError (List CurseItem) :=
  if stats.isEmpty || disabled then
    .ok []
  else
    match stats with
    | [gpu_stats] =>
      let header := ("GPU " ++ gpu_stats.name).take 16
      match gpu_stats.proc with
      | none => .error .typeError
      | some p =>
        let procMsg := padLeft 7 (toString p) ++ "%"
        match gpu_stats.mem with
        | some _ => .error .valueError
        | none =>
          .ok [ .line header "TITLE",
                .newline,
                .line (padRight 8 "proc:") "DEFAULT",
                .line procMsg (views gpu_stats.gpu_id "proc"),
                .newline,
                .line (padRight 8 "mem:") "DEFAULT",
                .line (padLeft 8 "N/A") (views gpu_stats.gpu_id "mem") ]
    | _ =>
      let header := (toString stats.length ++ " GPUs").take 16
      match gpuSummaryRows stats with
      | .ok rows => .ok (.line header "TITLE" :: rows)
      | .error e => .error e

/-- Outcome of `Plugin.exit`: how many times `pynvml.nvmlShutdown()` was
invoked, whether the parent class's `exit` ran, and whether an exception
escaped. -/
structure ExitResult where
  shutdownCalls : Nat
  parentExitCalled : Bool
  raised : Bool
deriving DecidableEq, Repr

/-- `Plugin.exit`: calls `nvmlShutdown()` only when `nvml_ready`, inside
a `try` whose `except Exception` logs and swallows any failure, then
always calls the parent `exit`. -/
def plugin_exit (nvml_ready : Bool) (shutdownResult : Except Unit Unit) :
    ExitResult :=
  if nvml_ready then
    match shutdownResult with
    | .ok _ => ⟨1, true, false⟩
    | .error _ => ⟨1, true, false⟩
  else
    ⟨0, true, false⟩

/-! ### Concrete fixtures used by counterexamples and witnesses -/

/-- Decoration lookup returning the parent-class default everywhere. -/
def defaultViews : Nat → String → String := fun _ _ => "DEFAULT"

/-- A healthy device: every driver call succeeds. -/
def hOk : DeviceHandle := ⟨.ok "GeForce GTX 560 Ti", .ok ⟨60, 30⟩, .ok ⟨50, 200⟩⟩

/-- A device whose name lookup raises `NVMLError`. -/
def hBadName : DeviceHandle := ⟨.error (), .ok ⟨60, 30⟩, .ok ⟨50, 200⟩⟩

/-- A device whose utilization-rates call raises `NVMLError` but whose
memory-info call succeeds. -/
def hOk2 : DeviceHandle := ⟨.ok "Tesla K80", .error (), .ok ⟨50, 200⟩⟩

/-- Two readings whose `mem` is `None` (the `memory_percent = None` case
of the spec), in a two-GPU snapshot. -/
def naPair : List DeviceStats :=
  [⟨get_key, 0, "GeForce GTX 560 Ti", none, some 60⟩,
   ⟨get_key, 1, "GeForce GTX 560 Ti", none, some 80⟩]

/-- The single-GPU snapshot from the source's commented test data:
`mem` is 30, `proc` is 60. -/
def monoStats : List DeviceStats :=
  [⟨get_key, 0, "GeForce GTX 560 Ti", some 30, some 60⟩]

/-- A stale reading from a previous cycle. -/
def prevStat : DeviceStats := ⟨get_key, 0, "GeForce GTX 560 Ti", some 30, some 60⟩

/-- A plugin state with non-empty previous stats whose only device fails
its name lookup on the next collection. -/
def stStale : PluginState := ⟨true, [hBadName], "local", [prevStat]⟩

/-! ### C1 — rendering of a `None` memory percent -/

/-- C1 counterexample: in the multi-device summary layout, a reading with
`mem = None` is NOT rendered as "N/A"; the raw `None` is interpolated
into the row format string with a width specifier, which raises
`TypeError`, contradicting the claim that both layouts render "N/A" and
never raise. -/
theorem msg_curse_multi_none_mem_raises :
    msg_curse naPair false defaultViews = .error .typeError := rfl

/-- C1 (amended): in the single-device detail layout, a reading with
`mem = None` (and a numeric `proc`) renders the explicit right-aligned
"N/A" marker for the memory metric — never 0, a blank, or an
exception.  The multi-device layout gives no such guarantee. -/
theorem msg_curse_mono_none_mem_renders_na (gid p : Nat) (name : String)
    (views : Nat → String → String) :
    msg_curse [⟨get_key, gid, name, none, some p⟩] false views =
      .ok [ .line (("GPU " ++ name).take 16) "TITLE",
            .newline,
            .line "proc:   " "DEFAULT",
            .line (padLeft 7 (toString p) ++ "%") (views gid "proc"),
            .newline,
            .line "mem:    " "DEFAULT",
            .line "     N/A" (views gid "mem") ] := rfl

/-! ### C2 — stats on a failed cycle -/

/-- C2 counterexample: `update` calls `reset()` before collecting, so
when collection fails on a non-first cycle the previous stats are NOT
retained (not stale): they are discarded and `self.stats` is left empty,
while the exception escapes the method body. -/
theorem update_failure_discards_previous_stats :
    (update stStale).1.stats = [] ∧
    stStale.stats ≠ [] ∧
    (update stStale).1.stats ≠ stStale.stats ∧
    (update stStale).2 = .error .attributeError := by
  refine ⟨rfl, ?_, ?_, rfl⟩ <;> decide

/-- C2 (amended): after any `update`, the stored stats are either empty
or a complete snapshot returned by `get_device_stats` — never partially
overwritten (the assignment is atomic); and whenever collection fails
the stored stats are empty (the `reset()` at the start of the cycle
already discarded the previous snapshot). -/
theorem update_stats_empty_or_complete (st : PluginState) :
    ((update st).1.stats = [] ∨
      get_device_stats st.device_handles = .ok (update st).1.stats) ∧
    (∀ e, get_device_stats st.device_handles = .error e →
      (update st).1.stats = []) := by
  unfold update
  by_cases hr : st.nvml_ready = true
  · by_cases him : st.input_method = "local"
    · cases hgs : get_device_stats st.device_handles with
      | ok s => simp [hr, him, hgs]
      | error e => simp [hr, him, hgs]
    · simp [hr, him]
  · simp [hr]

/-- C2 witness: the amended theorem applied to the concrete failing
state. -/
theorem update_stats_empty_or_complete_witness :
    (update stStale).1.stats = [] :=
  (update_stats_empty_or_complete stStale).2 .attributeError rfl

/-! ### C3 — layout selection in `msg_curse` -/

/-- C3 (the bug): with exactly one device and a numeric `mem`, the
detail layout does not render the mem row: the mem value format string
(the invalid specifier with the percent sign inside the replacement
field) raises `ValueError`, evaluated here at the source's own commented
test data. -/
theorem msg_curse_mono_numeric_mem_raises :
    msg_curse monoStats false defaultViews = .error .valueError := rfl

/-! ### C4 — failed driver initialization -/

/-- C4: if importing `pynvml` failed, or `nvmlInit` raised, or device
enumeration raised, then `init_nvidia` marks the plugin not ready
without propagating any exception (it is a total function), and every
subsequent `update` on a not-ready state returns the empty stats list
and a state whose handles are untouched — for any handles, input method
and previous stats, showing no driver function is invoked. -/
theorem init_failure_marks_not_ready (env : PluginEnv)
    (h : env.gpu_nvidia_tag = false ∨ env.nvmlInitResult = .error () ∨
      env.deviceHandlesResult = .error ()) :
    (init_nvidia env).1 = false ∧
    ∀ (hs : List DeviceHandle) (im : String) (prev : List DeviceStats),
      update ⟨false, hs, im, prev⟩ = (⟨false, hs, im, []⟩, .ok []) := by
  constructor
  · unfold init_nvidia
    by_cases ht : env.gpu_nvidia_tag = true
    · rcases h with h | h | h
      · rw [ht] at h; cases h
      · simp [ht, h]
      · cases hi : env.nvmlInitResult with
        | ok u => simp [ht, hi, h]
        | error e => simp [ht, hi]
    · simp [ht]
  · intro hs im prev
    rfl

/-- C4 witness: the missing-library environment. -/
theorem init_failure_marks_not_ready_witness :
    (init_nvidia ⟨false, .ok (), .ok []⟩).1 = false ∧
    update ⟨false, [hOk], "local", [prevStat]⟩ =
      (⟨false, [hOk], "local", []⟩, .ok []) :=
  ⟨(init_failure_marks_not_ready ⟨false, .ok (), .ok []⟩ (Or.inl rfl)).1,
   (init_failure_marks_not_ready ⟨false, .ok (), .ok []⟩ (Or.inl rfl)).2
     [hOk] "local" [prevStat]⟩

/-! ### C5 — snmp input method -/

/-- C5: when `input_method` is `'snmp'`, `update` returns the empty
stats list and raises no error (the branch is `pass`, leaving the
freshly reset empty stats in place), whatever the rest of the state. -/
theorem update_snmp_returns_empty (st : PluginState)
    (h : st.input_method = "snmp") :
    (update st).2 = .ok [] ∧ (update st).1.stats = [] := by
  unfold update
  by_cases hr : st.nvml_ready = true
  · have him : ¬ (st.input_method = "local") := by rw [h]; decide
    simp [hr, him]
  · simp [hr]

/-- C5 witness: a ready plugin in snmp mode with devices present. -/
theorem update_snmp_returns_empty_witness :
    (update ⟨true, [hOk], "snmp", [prevStat]⟩).2 = .ok [] ∧
    (update ⟨true, [hOk], "snmp", [prevStat]⟩).1.stats = [] :=
  update_snmp_returns_empty ⟨true, [hOk], "snmp", [prevStat]⟩ rfl

/-! ### C6 — shape of a collected snapshot -/

/-- Inversion for `get_device_name`: a returned name is the driver's. -/
theorem get_device_name_ok {h : DeviceHandle} {n : String}
    (hh : get_device_name h = .ok n) : h.nvmlDeviceGetName = .ok n := by
  unfold get_device_name at hh
  cases hn : h.nvmlDeviceGetName with
  | ok m => rw [hn] at hh; injection hh with h2; rw [h2]
  | error e => rw [hn] at hh; cases hh

/-- The loop invariant of `get_device_stats`: starting the counter at
`idx`, a successful collection yields one reading per handle, in order,
with `gpu_id = idx + position`, the list key, and the `name`, `mem` and
`proc` obtained from the corresponding handle. -/
theorem get_device_stats_from_spec (hs : List DeviceHandle) :
    ∀ (idx : Nat) (stats : List DeviceStats),
      get_device_stats_from idx hs = .ok stats →
      stats.length = hs.length ∧
      ∀ (i : Nat) (hi : i < stats.length) (hi' : i < hs.length),
        (stats.get ⟨i, hi⟩).gpu_id = idx + i ∧
        (stats.get ⟨i, hi⟩).key = get_key ∧
        (hs.get ⟨i, hi'⟩).nvmlDeviceGetName = .ok (stats.get ⟨i, hi⟩).name ∧
        get_mem (hs.get ⟨i, hi'⟩) = .ok (stats.get ⟨i, hi⟩).mem ∧
        (stats.get ⟨i, hi⟩).proc = get_proc (hs.get ⟨i, hi'⟩) := by
  induction hs with
  | nil =>
    intro idx stats h
    simp [get_device_stats_from] at h
    subst h
    exact ⟨rfl, fun i hi => absurd hi (by simp)⟩
  | cons hd tl ih =>
    intro idx stats h
    unfold get_device_stats_from at h
    cases hn : get_device_name hd with
    | error e => rw [hn] at h; cases h
    | ok name =>
      rw [hn] at h
      cases hm : get_mem hd with
      | error e => rw [hm] at h; cases h
      | ok mem =>
        rw [hm] at h
        cases ht : get_device_stats_from (idx + 1) tl with
        | error e => rw [ht] at h; cases h
        | ok tail =>
          rw [ht] at h
          injection h with h
          subst h
          obtain ⟨hlen, hidx⟩ := ih (idx + 1) tail ht
          refine ⟨by simp [hlen], ?_⟩
          intro i hi hi'
          cases i with
          | zero =>
            exact ⟨by simp, rfl, get_device_name_ok hn, hm, rfl⟩
          | succ j =>
            have hj : j < tail.length := by
              simpa using Nat.lt_of_succ_lt_succ hi
            have hj' : j < tl.length := by
              simpa using Nat.lt_of_succ_lt_succ hi'
            obtain ⟨h1, h2, h3, h4, h5⟩ := hidx j hj hj'
            refine ⟨?_, h2, h3, h4, h5⟩
            simp only [List.get_cons_succ, h1]
            omega

/-- C6: every snapshot produced by `get_device_stats` from `n` handles
has exactly `n` readings, `gpu_id` values `0..n-1` assigned in driver
enumeration order (so `gpu_id` is unique within the snapshot), and each
reading carries the `key`, `name`, `mem` and `proc` obtained from the
corresponding handle. -/
theorem get_device_stats_shape (handles : List DeviceHandle)
    (stats : List DeviceStats)
    (h : get_device_stats handles = .ok stats) :
    stats.length = handles.length ∧
    (∀ (i : Nat) (hi : i < stats.length),
      (stats.get ⟨i, hi⟩).gpu_id = i ∧ (stats.get ⟨i, hi⟩).key = get_key) ∧
    (∀ (i j : Nat) (hi : i < stats.length) (hj : j < stats.length),
      (stats.get ⟨i, hi⟩).gpu_id = (stats.get ⟨j, hj⟩).gpu_id → i = j) ∧
    (∀ (i : Nat) (hi : i < stats.length) (hi' : i < handles.length),
      (handles.get ⟨i, hi'⟩).nvmlDeviceGetName = .ok (stats.get ⟨i, hi⟩).name ∧
      get_mem (handles.get ⟨i, hi'⟩) = .ok (stats.get ⟨i, hi⟩).mem ∧
      (stats.get ⟨i, hi⟩).proc = get_proc (handles.get ⟨i, hi'⟩)) := by
  obtain ⟨hlen, hidx⟩ := get_device_stats_from_spec handles 0 stats h
  have hlen' : ∀ i, i < stats.length → i < handles.length := by
    intro i hi; rwa [hlen] at hi
  refine ⟨hlen, ?_, ?_, ?_⟩
  · intro i hi
    obtain ⟨h1, h2, _⟩ := hidx i hi (hlen' i hi)
    exact ⟨by simpa using h1, h2⟩
  · intro i j hi hj hij
    obtain ⟨h1, _⟩ := hidx i hi (hlen' i hi)
    obtain ⟨h1', _⟩ := hidx j hj (hlen' j hj)
    rw [h1, h1'] at hij
    omega
  · intro i hi hi'
    obtain ⟨_, _, h3, h4, h5⟩ := hidx i hi hi'
    exact ⟨h3, h4, h5⟩

/-- C6 witness: a two-device enumeration, one healthy device and one
whose utilization call fails. -/
theorem get_device_stats_shape_witness :
    ([⟨get_key, 0, "GeForce GTX 560 Ti", some 30, some 60⟩,
      ⟨get_key, 1, "Tesla K80", some 25, none⟩] : List DeviceStats).length =
      ([hOk, hOk2] : List DeviceHandle).length :=
  (get_device_stats_shape [hOk, hOk2]
    [⟨get_key, 0, "GeForce GTX 560 Ti", some 30, some 60⟩,
     ⟨get_key, 1, "Tesla K80", some 25, none⟩] rfl).1

/-! ### C7 — alert evaluation -/

/-- C7: for ascending thresholds careful < warning < critical, the alert
evaluator (a pure, hence stateless, function) classifies by `>=`
comparison with the highest boundary met winning: critical exactly on
`value >= critical`, warning exactly on `warning <= value < critical`,
careful exactly on `careful <= value < warning`, and OK below careful. -/
theorem get_alert_threshold_bands (v : Nat) (t : Thresholds)
    (hcw : t.careful < t.warning) (hwc : t.warning < t.critical) :
    ((get_alert v t = .critical) ↔ t.critical ≤ v) ∧
    ((get_alert v t = .warning) ↔ t.warning ≤ v ∧ v < t.critical) ∧
    ((get_alert v t = .careful) ↔ t.careful ≤ v ∧ v < t.warning) ∧
    ((get_alert v t = .ok) ↔ v < t.careful) := by
  unfold get_alert
  split_ifs with h1 h2 h3 <;> simp_all <;> omega

/-- C7 witness: `evaluate(75, careful=50, warning=70, critical=90)`
returns WARNING. -/
theorem get_alert_threshold_bands_witness :
    get_alert 75 ⟨50, 70, 90⟩ = .warning :=
  ((get_alert_threshold_bands 75 ⟨50, 70, 90⟩ (by decide) (by decide)).2.1).mpr
    (by decide)

/-! ### C8 — shutdown on exit -/

/-- C8: `exit` invokes `nvmlShutdown` exactly once when the driver was
initialized and not at all otherwise; a failing shutdown is caught
(nothing escapes), and the parent class's `exit` always runs
afterwards, whatever the shutdown outcome. -/
theorem exit_shutdown_once_then_parent (ready : Bool)
    (res : Except Unit Unit) :
    (plugin_exit ready res).shutdownCalls = (if ready then 1 else 0) ∧
    (plugin_exit ready res).parentExitCalled = true ∧
    (plugin_exit ready res).raised = false := by
  cases ready <;> cases res <;> simp [plugin_exit]

/-! ### C9 — name fallback -/

/-- C9 (the bug): when the driver's name lookup raises `NVMLError`, the
misspelled handler `pynvml.NVMlError` makes Python raise
`AttributeError` out of `get_device_name` instead of returning the
documented `"NVIDIA GPU"` fallback. -/
theorem get_device_name_error_raises_attribute_error :
    get_device_name hBadName = .error .attributeError ∧
    get_device_name hBadName ≠ .ok "NVIDIA GPU" := by
  exact ⟨rfl, by decide⟩

/-! ### C10 — memory percent fallback chain -/

/-- C10 counterexample: `get_mem` is not exception-free.  When the
utilization call raises `NVMLError` and the memory-info fallback reports
`total == 0`, the division `used * 100 / total` raises
`ZeroDivisionError`, which the `except pynvml.NVMLError` handler does not
catch, so it propagates out of `get_mem` instead of yielding a value. -/
theorem get_mem_zero_total_raises :
    get_mem ⟨.ok "GeForce GTX 560 Ti", .error (), .ok ⟨5, 0⟩⟩ =
      .error .zeroDivisionError := rfl

/-- C10 (amended): `get_mem` returns the utilization-rates memory
percent; if that call fails with an NVML error it returns
`used * 100 / total` from the device memory info; and if that fallback
call also fails with an NVML error it returns `None`.  It raises in
exactly one case: a memory-info reply with `total = 0` makes the
fallback division raise `ZeroDivisionError`, which the NVML-only
handlers do not catch. -/
theorem get_mem_fallback_chain (hd : DeviceHandle) :
    (∀ u, hd.nvmlDeviceGetUtilizationRates = .ok u →
      get_mem hd = .ok (some u.memory)) ∧
    (∀ m, hd.nvmlDeviceGetUtilizationRates = .error () →
      hd.nvmlDeviceGetMemoryInfo = .ok m → m.total ≠ 0 →
      get_mem hd = .ok (some (m.used * 100 / m.total))) ∧
    (hd.nvmlDeviceGetUtilizationRates = .error () →
      hd.nvmlDeviceGetMemoryInfo = .error () →
      get_mem hd = .ok none) ∧
    (∀ m, hd.nvmlDeviceGetUtilizationRates = .error () →
      hd.nvmlDeviceGetMemoryInfo = .ok m → m.total = 0 →
      get_mem hd = .error .zeroDivisionError) := by
  unfold get_mem
  refine ⟨?_, ?_, ?_, ?_⟩
  · intro u hu; rw [hu]
  · intro m hu hm hz; rw [hu, hm]; simp [hz]
  · intro hu hm; rw [hu, hm]
  · intro m hu hm hz; rw [hu, hm]; simp [hz]

/-- C10 witness: a device whose utilization call fails but whose memory
info reports 50 bytes used of a non-zero total of 200. -/
theorem get_mem_fallback_chain_witness :
    get_mem hOk2 = .ok (some (50 * 100 / 200)) :=
  (get_mem_fallback_chain hOk2).2.1 ⟨50, 200⟩ rfl rfl (by decide)

end GlancesGpu
